import Mathlib

/-!
Shallow embedding of the GameLog 2 web client
(`src/frontend/src/app/page.tsx`).

Modelling conventions:
* A JavaScript number that can be `NaN` (the result of `Number(...)` on a
  form input string) is embedded as `Option ℚ` (`NumVal`), with `none`
  standing for `NaN` and `some q` for the finite value `q`.
* An ISO timestamp string is embedded by its `Date.parse` value in
  milliseconds (`Int`); `null` is `Option.none`.
* `fetch` and the backend are abstracted as an oracle
  `SentReq → Except String ApiResp`; a thrown exception is `Except.error`.
* React state updates become explicit state passing on `ClientState`;
  each handler returns the new state, the list of HTTP requests it issued
  (in order) and the `alert` messages it raised.
-/

namespace GameLog

/-- A JavaScript number that may be `NaN`: `none` is `NaN`. -/
abbrev NumVal := Option ℚ

/-- JS `Number.isNaN(v)`. -/
def jsIsNaN (v : NumVal) : Bool := v.isNone

/-- JS `v > 0` (false when `v` is `NaN`). -/
def jsGt0 (v : NumVal) : Bool :=
  match v with
  | none => false
  | some q => decide (0 < q)

/-- JS `v <= 0` (false when `v` is `NaN`). -/
def jsLe0 (v : NumVal) : Bool :=
  match v with
  | none => false
  | some q => decide (q ≤ 0)

/-- JS `v >= 0` (false when `v` is `NaN`). -/
def jsGe0 (v : NumVal) : Bool :=
  match v with
  | none => false
  | some q => decide (0 ≤ q)

/-- JS `String.prototype.trim()`: strip leading and trailing whitespace,
modelled directly on the character list. -/
def jsTrim (s : String) : String :=
  ⟨((s.data.dropWhile Char.isWhitespace).reverse.dropWhile
      Char.isWhitespace).reverse⟩

/-- The `Game` record type of `page.tsx` (`type Game = {...}`).
`last_now_playing_at` is the `Date.parse` value of the ISO string, or
`none` for `null`. -/
structure Game where
  id : Nat
  title : String
  platform : String
  status : String
  hours_played : ℚ
  estimated_hours : ℚ
  completion_percent : ℚ
  cover_art_url : Option String
  is_current : Bool
  last_now_playing_at : Option Int
deriving Repr, DecidableEq

/-- The fixed `PLATFORMS` list of `page.tsx`. -/
def PLATFORMS : List String :=
  ["PC", "PS5", "PS4", "Xbox Series X|S", "Xbox One", "Switch", "Switch 2", "Other"]

namespace ProgressBar

/-- `const safe = Math.max(0, Math.min(100, percent));` -/
def safe (percent : ℚ) : ℚ := max 0 (min 100 percent)

/-- `const remaining = 100 - safe;` -/
def remaining (percent : ℚ) : ℚ := 100 - safe percent

end ProgressBar

/-- The sort key used by the backlog comparator:
`a.last_now_playing_at ? Date.parse(a.last_now_playing_at) : 0`. -/
def sortKey (g : Game) : Int :=
  match g.last_now_playing_at with
  | some t => t
  | none => 0

/-- Stable insertion (descending by `sortKey`) of one game into an already
descending list; an element is placed before the first element whose key is
`≤` its own, which reproduces the unique stable result of
`Array.prototype.sort` with comparator `(a, b) => bTime - aTime`. -/
def insertDesc (g : Game) : List Game → List Game
  | [] => [g]
  | h :: t => if sortKey h ≤ sortKey g then g :: h :: t else h :: insertDesc g t

/-- Stable descending sort by `sortKey` (the effect of
`notCurrent.sort((a, b) => bTime - aTime)`). -/
def sortDesc : List Game → List Game
  | [] => []
  | h :: t => insertDesc h (sortDesc t)

/-- `const backlog = games.filter((g) => !g.is_current).sort(...)`. -/
def backlog (games : List Game) : List Game :=
  sortDesc (games.filter (fun g => !g.is_current))

/-- `const currentGame = games.find((g) => g.is_current) ?? null`. -/
def currentGame (games : List Game) : Option Game :=
  games.find? (fun g => g.is_current)

/-! ## The network layer -/

/-- HTTP verbs used by the client. -/
inductive Verb where
  | GET | POST | PATCH | DELETE
deriving Repr, DecidableEq

/-- The JSON bodies `JSON.stringify` produces in `page.tsx`, one constructor
per call site. -/
inductive ReqBody where
  /-- `{title, platform, cover_art_url, estimated_hours, status}` from
  `createGame`. -/
  | createBody (title platform : String) (cover_art_url : Option String)
      (estimated_hours : NumVal) (status : String)
  /-- `{is_current: true}` from `setNowPlaying`. -/
  | isCurrentTrue
  /-- `{add_hours: h}` from `addHours`. -/
  | addHoursBody (add_hours : NumVal)
  /-- `{hours_played, estimated_hours}` from `saveEdits`. -/
  | progressBody (hours_played estimated_hours : NumVal)
  /-- `{title, platform, cover_art_url}` from `saveMeta`. -/
  | metaBody (title platform : String) (cover_art_url : Option String)
deriving Repr, DecidableEq

/-- One HTTP request as actually sent by `fetch`, with the value of its
`Authorization` header (if one was set). -/
structure SentReq where
  verb : Verb
  path : String
  auth : Option String
  body : Option ReqBody
deriving Repr, DecidableEq

/-- A request carrying `Authorization: Bearer <t>` as `apiJson` builds it. -/
def bearerReq (t : String) (verb : Verb) (path : String) (body : Option ReqBody) :
    SentReq :=
  ⟨verb, path, some ("Bearer " ++ t), body⟩

/-- What a completed (non-error) response can look like to `apiJson`:
a JSON array of games, some other JSON value, or a non-JSON body (which
`apiJson` turns into `undefined`). -/
inductive ApiResp where
  | jsonList (gs : List Game)
  | jsonOther
  | noJson
deriving Repr, DecidableEq

/-- The backend plus network, abstracted: every sent request gets either a
response or a thrown error (non-ok status, network failure, ...). -/
abbrev Oracle := SentReq → Except String ApiResp

/-- `apiJson` from `page.tsx`: throws `"Not authenticated"` before any
network call when there is no token; otherwise sets the
`Authorization: Bearer` header and performs the fetch.  Returns the result
together with the list of requests that actually went on the wire. -/
def apiJson (oracle : Oracle) (token : Option String) (verb : Verb)
    (path : String) (body : Option ReqBody) :
    Except String ApiResp × List SentReq :=
  match token with
  | none => (.error "Not authenticated", [])
  | some t => (oracle (bearerReq t verb path body), [bearerReq t verb path body])

/-! ## Client state and handlers -/

/-- The React state of `Home` that the handlers touch. -/
structure ClientState where
  games : List Game
  selected : Option Game
  loading : Bool
  addOpen : Bool
  token : Option String
deriving Repr, DecidableEq

/-- Result of running one handler: the new state, the requests issued in
order, and the `alert` messages shown to the user. -/
structure OpResult where
  state : ClientState
  reqs : List SentReq
  alerts : List String
deriving Repr, DecidableEq

/-- `refresh` from `page.tsx`: no-op without a token; otherwise
`GET /games`, storing the returned array, and on a non-array response or
any thrown error storing `[]` (with `console.error`, not `alert`). -/
def refresh (oracle : Oracle) (s : ClientState) : ClientState × List SentReq :=
  match s.token with
  | none => (s, [])
  | some _ =>
    let r := apiJson oracle s.token .GET "/games" none
    match r.1 with
    | .ok (.jsonList gs) => ({ s with games := gs }, r.2)
    | .ok _ => ({ s with games := [] }, r.2)
    | .error _ => ({ s with games := [] }, r.2)

/-- The `onCreate` payload type of `AddGameModal`
(`cover_art_url?: string | null` collapses to `Option String` because
`createGame` applies `?? null`; `estimated_hours?: number` is
`Option NumVal`, `none` = absent). -/
structure CreatePayload where
  title : String
  platform : String
  cover_art_url : Option String
  estimated_hours : Option NumVal
deriving Repr, DecidableEq

/-- The JSON body `createGame` posts: `payload.cover_art_url ?? null` and
`payload.estimated_hours ?? 40`, with `status: "backlog"` always. -/
def createGameBody (p : CreatePayload) : ReqBody :=
  .createBody p.title p.platform p.cover_art_url
    (match p.estimated_hours with
     | none => some 40
     | some v => v)
    "backlog"

/-- `createGame` from `page.tsx`. -/
def createGame (oracle : Oracle) (s : ClientState) (p : CreatePayload) :
    OpResult :=
  let r := apiJson oracle s.token .POST "/games" (some (createGameBody p))
  match r.1 with
  | .ok _ =>
    let rf := refresh oracle s
    ⟨{ rf.1 with addOpen := false, loading := false }, r.2 ++ rf.2, []⟩
  | .error e => ⟨{ s with loading := false }, r.2, ["Create failed: " ++ e]⟩

/-- `setNowPlaying` from `page.tsx`. -/
def setNowPlaying (oracle : Oracle) (s : ClientState) (game : Game) :
    OpResult :=
  let r := apiJson oracle s.token .PATCH ("/games/" ++ toString game.id)
    (some .isCurrentTrue)
  match r.1 with
  | .ok _ =>
    let rf := refresh oracle s
    ⟨{ rf.1 with selected := none, loading := false }, r.2 ++ rf.2, []⟩
  | .error e => ⟨{ s with loading := false }, r.2, ["Update failed: " ++ e]⟩

/-- `addHours` from `page.tsx` (keeps the modal open on success). -/
def addHours (oracle : Oracle) (s : ClientState) (game : Game)
    (hoursToAdd : NumVal) : OpResult :=
  let r := apiJson oracle s.token .PATCH ("/games/" ++ toString game.id)
    (some (.addHoursBody hoursToAdd))
  match r.1 with
  | .ok _ =>
    let rf := refresh oracle s
    ⟨{ rf.1 with loading := false }, r.2 ++ rf.2, []⟩
  | .error e => ⟨{ s with loading := false }, r.2, ["Update failed: " ++ e]⟩

/-- `saveEdits` from `page.tsx`. -/
def saveEdits (oracle : Oracle) (s : ClientState) (game : Game)
    (hours_played estimated_hours : NumVal) : OpResult :=
  let r := apiJson oracle s.token .PATCH ("/games/" ++ toString game.id)
    (some (.progressBody hours_played estimated_hours))
  match r.1 with
  | .ok _ =>
    let rf := refresh oracle s
    ⟨{ rf.1 with selected := none, loading := false }, r.2 ++ rf.2, []⟩
  | .error e => ⟨{ s with loading := false }, r.2, ["Save failed: " ++ e]⟩

/-- The `onSaveMeta` payload type of `Modal`. -/
structure MetaPayload where
  title : String
  platform : String
  cover_art_url : Option String
deriving Repr, DecidableEq

/-- `saveMeta` from `page.tsx`. -/
def saveMeta (oracle : Oracle) (s : ClientState) (game : Game)
    (p : MetaPayload) : OpResult :=
  let r := apiJson oracle s.token .PATCH ("/games/" ++ toString game.id)
    (some (.metaBody p.title p.platform p.cover_art_url))
  match r.1 with
  | .ok _ =>
    let rf := refresh oracle s
    ⟨{ rf.1 with selected := none, loading := false }, r.2 ++ rf.2, []⟩
  | .error e => ⟨{ s with loading := false }, r.2, ["Save failed: " ++ e]⟩

/-- `deleteGame` from `page.tsx`. -/
def deleteGame (oracle : Oracle) (s : ClientState) (game : Game) : OpResult :=
  let r := apiJson oracle s.token .DELETE ("/games/" ++ toString game.id) none
  match r.1 with
  | .ok _ =>
    let rf := refresh oracle s
    ⟨{ rf.1 with selected := none, loading := false }, r.2 ++ rf.2, []⟩
  | .error e => ⟨{ s with loading := false }, r.2, ["Delete failed: " ++ e]⟩

/-- What the list state holds right after a `refresh` under token `t`:
the array the `GET /games` response carried, or `[]` on a non-array
response or a thrown error. -/
def fetchList (oracle : Oracle) (t : String) : List Game :=
  match oracle (bearerReq t .GET "/games" none) with
  | .ok (.jsonList gs) => gs
  | _ => []

/-! ## The game modal controls -/

namespace Modal

/-- `disabled={loading}` on the "Set as Now Playing" button. -/
def setNowPlayingDisabled (loading : Bool) : Bool := loading

/-- `disabled={loading || Number(hours) <= 0 || Number.isNaN(Number(hours))}`
on the "Add" button; `hours` is the parsed value of the input. -/
def addDisabled (loading : Bool) (hours : NumVal) : Bool :=
  loading || jsLe0 hours || jsIsNaN hours

/-- Clicking "Add" fires `onAddHours(Number(hours))` only when the button is
enabled. -/
def clickAdd (loading : Bool) (hours : NumVal) : Option NumVal :=
  if addDisabled loading hours then none else some hours

/-- `canSaveProgress` from `Modal`:
`!loading && !Number.isNaN(Number(hoursPlayed)) && Number(hoursPlayed) >= 0 &&
!Number.isNaN(Number(estimatedHours)) && Number(estimatedHours) > 0`. -/
def canSaveProgress (loading : Bool) (hoursPlayed estimatedHours : NumVal) :
    Bool :=
  !loading && !jsIsNaN hoursPlayed && jsGe0 hoursPlayed &&
    !jsIsNaN estimatedHours && jsGt0 estimatedHours

/-- `disabled={!canSaveProgress}` on the progress "Save" button. -/
def saveProgressDisabled (loading : Bool) (hoursPlayed estimatedHours : NumVal) :
    Bool :=
  !canSaveProgress loading hoursPlayed estimatedHours

/-- `canSaveMeta` from `Modal`: `!loading && titleOk && platformOk` with
`titleOk = editTitle.trim().length > 0` and
`platformOk = editPlatform.trim().length > 0`. -/
def canSaveMeta (loading : Bool) (editTitle editPlatform : String) : Bool :=
  !loading && decide (0 < (jsTrim editTitle).length) &&
    decide (0 < (jsTrim editPlatform).length)

/-- `disabled={!canSaveMeta}` on the game-info "Save" button. -/
def saveMetaDisabled (loading : Bool) (editTitle editPlatform : String) : Bool :=
  !canSaveMeta loading editTitle editPlatform

/-- The payload the game-info "Save" button passes to `onSaveMeta`:
`{title: editTitle.trim(), platform: editPlatform,
cover_art_url: editCoverArtUrl.trim() ? editCoverArtUrl.trim() : null}`. -/
def metaPayload (editTitle editPlatform editCoverArtUrl : String) :
    MetaPayload :=
  ⟨jsTrim editTitle, editPlatform,
    if jsTrim editCoverArtUrl ≠ "" then some (jsTrim editCoverArtUrl) else none⟩

/-- Clicking the game-info "Save" button fires `onSaveMeta` with
`metaPayload` only when the button is enabled. -/
def clickSaveMeta (loading : Bool)
    (editTitle editPlatform editCoverArtUrl : String) : Option MetaPayload :=
  if saveMetaDisabled loading editTitle editPlatform then none
  else some (metaPayload editTitle editPlatform editCoverArtUrl)

/-- `disabled={loading}` on the "Delete Game" button. -/
def deleteDisabled (loading : Bool) : Bool := loading

end Modal

/-! ## The add-game modal -/

namespace AddGameModal

/-- The local state of `AddGameModal`; the numeric input is kept as its
parsed `Number(...)` value. -/
structure State where
  title : String
  platform : String
  coverArtUrl : String
  estimatedHours : NumVal
deriving Repr, DecidableEq

/-- `useState` initial values: `""`, `"PC"`, `""`, `"40"`. -/
def init : State := ⟨"", "PC", "", some 40⟩

/-- The events the modal's inputs can produce.  The platform `select` only
offers the entries of `PLATFORMS` as option values, so its change event is
indexed by a position in that list. -/
inductive Event where
  | setTitle (s : String)
  | setPlatform (i : Fin PLATFORMS.length)
  | setCover (s : String)
  | setEstimated (v : NumVal)
deriving Repr, DecidableEq

/-- One `setXxx` state update. -/
def step (s : State) : Event → State
  | .setTitle t => { s with title := t }
  | .setPlatform i => { s with platform := PLATFORMS.get i }
  | .setCover c => { s with coverArtUrl := c }
  | .setEstimated v => { s with estimatedHours := v }

/-- The modal state after a sequence of input events. -/
def reach (evs : List Event) : State := evs.foldl step init

/-- `canSubmit` from `AddGameModal`:
`title.trim().length > 0 && Number(estimatedHours) > 0 &&
!Number.isNaN(Number(estimatedHours))`. -/
def canSubmit (s : State) : Bool :=
  decide (0 < (jsTrim s.title).length) && jsGt0 s.estimatedHours &&
    !jsIsNaN s.estimatedHours

/-- `disabled={!canSubmit || loading}` on the "Create" button. -/
def createDisabled (loading : Bool) (s : State) : Bool :=
  !canSubmit s || loading

/-- Clicking "Create" fires `onCreate` with the payload built from the
modal state only when the button is enabled. -/
def submit (s : State) (loading : Bool) : Option CreatePayload :=
  if createDisabled loading s then none
  else
    some ⟨jsTrim s.title, s.platform,
      (if jsTrim s.coverArtUrl ≠ "" then some (jsTrim s.coverArtUrl) else none),
      some s.estimatedHours⟩

end AddGameModal

/-! ## Example records for the backlog-ordering claims -/

/-- A non-current record with `last_now_playing_at = null`. -/
def exNull : Game := ⟨1, "Null Time", "PC", "backlog", 0, 40, 0, none, false, none⟩

/-- A non-current record with `last_now_playing_at = "2024-01-01"`
(`Date.parse` = 1704067200000). -/
def exJan : Game :=
  ⟨2, "January", "PC", "backlog", 0, 40, 0, none, false, some 1704067200000⟩

/-- A non-current record with `last_now_playing_at = "2024-06-01"`
(`Date.parse` = 1717200000000). -/
def exJun : Game :=
  ⟨3, "June", "PC", "backlog", 0, 40, 0, none, false, some 1717200000000⟩

/-- A non-current record with a pre-epoch timestamp
`"1969-12-31T23:59:59.999Z"` (`Date.parse` = -1). -/
def exPre : Game :=
  ⟨4, "Pre Epoch", "PC", "backlog", 0, 40, 0, none, false, some (-1)⟩

/-! ## Lemmas about the backlog sort -/

/-- `insertDesc` produces a permutation of consing the element on. -/
theorem insertDesc_perm (g : Game) (l : List Game) :
    List.Perm (insertDesc g l) (g :: l) := by
  induction l with
  | nil => simp [insertDesc]
  | cons h t ih =>
      by_cases hc : sortKey h ≤ sortKey g
      · simp [insertDesc, hc]
      · simp only [insertDesc, hc, if_neg]
        exact (ih.cons h).trans (List.Perm.swap g h t)

/-- `sortDesc` permutes its input. -/
theorem sortDesc_perm (l : List Game) : List.Perm (sortDesc l) l := by
  induction l with
  | nil => simp [sortDesc]
  | cons h t ih => exact (insertDesc_perm h (sortDesc t)).trans (ih.cons h)

/-- Membership is preserved by `sortDesc`. -/
theorem mem_sortDesc (g : Game) (l : List Game) : g ∈ sortDesc l ↔ g ∈ l :=
  (sortDesc_perm l).mem_iff

/-- Inserting preserves descending sortedness. -/
theorem insertDesc_pairwise (g : Game) (l : List Game)
    (hl : l.Pairwise (fun a b => sortKey b ≤ sortKey a)) :
    (insertDesc g l).Pairwise (fun a b => sortKey b ≤ sortKey a) := by
  induction l with
  | nil => simp [insertDesc]
  | cons h t ih =>
      rcases List.pairwise_cons.mp hl with ⟨hh, ht⟩
      by_cases hc : sortKey h ≤ sortKey g
      · simp only [insertDesc, hc, if_pos]
        refine List.pairwise_cons.mpr ⟨?_, hl⟩
        intro x hx
        rcases List.mem_cons.mp hx with hx | hx
        · subst hx
          exact hc
        · exact le_trans (hh x hx) hc
      · simp only [insertDesc, hc, if_neg]
        refine List.pairwise_cons.mpr ⟨?_, ih ht⟩
        intro x hx
        rcases List.mem_cons.mp ((insertDesc_perm g t).mem_iff.mp hx) with hx | hx
        · subst hx
          exact le_of_lt (lt_of_not_le hc)
        · exact hh x hx

/-- `sortDesc` output is descending in `sortKey`. -/
theorem sortDesc_pairwise (l : List Game) :
    (sortDesc l).Pairwise (fun a b => sortKey b ≤ sortKey a) := by
  induction l with
  | nil => simp [sortDesc]
  | cons h t ih => exact insertDesc_pairwise h (sortDesc t) ih

/-- A member of the backlog is never a current game. -/
theorem mem_backlog_not_current (gs : List Game) (g : Game)
    (h : g ∈ backlog gs) : g.is_current = false := by
  have h2 := (mem_sortDesc g _).mp h
  simp only [List.mem_filter, Bool.not_eq_true'] at h2
  exact h2.2

/-- `find?` returns the head of the filtered list. -/
theorem find_eq_filter_head (p : Game → Bool) (l : List Game) :
    l.find? p = (l.filter p).head? := by
  induction l with
  | nil => simp
  | cons h t ih =>
      by_cases hp : p h
      · rw [List.find?_cons_of_pos _ hp, List.filter_cons_of_pos hp]
        rfl
      · rw [List.find?_cons_of_neg _ hp, List.filter_cons_of_neg hp, ih]

/-! ## Lemmas about the network handlers -/

/-- Running `refresh` with a token: one `GET /games` request and the list
replaced by `fetchList`. -/
theorem refresh_run (oracle : Oracle) (s : ClientState) (t : String)
    (h : s.token = some t) :
    refresh oracle s =
      ({ s with games := fetchList oracle t },
        [bearerReq t .GET "/games" none]) := by
  cases h2 : oracle (bearerReq t .GET "/games" none) with
  | error e => simp [refresh, h, apiJson, fetchList, h2]
  | ok r => cases r <;> simp [refresh, h, apiJson, fetchList, h2]

/-! ## Claim theorems -/

/-- C9: for every numeric percent input, the ProgressBar green segment width
is `min(100, max(0, percent))`, the red segment is `100` minus that clamped
value, both widths lie in `[0, 100]`, and they sum to exactly `100`, even
when the percent is outside the 0–100 range. -/
theorem c9_progress_bar_clamped (percent : ℚ) :
    ProgressBar.safe percent = min 100 (max 0 percent) ∧
    ProgressBar.remaining percent = 100 - ProgressBar.safe percent ∧
    0 ≤ ProgressBar.safe percent ∧ ProgressBar.safe percent ≤ 100 ∧
    0 ≤ ProgressBar.remaining percent ∧ ProgressBar.remaining percent ≤ 100 ∧
    ProgressBar.safe percent + ProgressBar.remaining percent = 100 := by
  unfold ProgressBar.remaining
  refine ⟨?_, rfl, ?_, ?_, ?_, ?_, ?_⟩
  · unfold ProgressBar.safe
    rw [max_min_distrib_left]
    norm_num
  · exact le_max_left 0 _
  · exact max_le (by norm_num) (min_le_left 100 percent)
  · have h : ProgressBar.safe percent ≤ 100 :=
      max_le (by norm_num) (min_le_left 100 percent)
    linarith
  · have h : (0 : ℚ) ≤ ProgressBar.safe percent := le_max_left 0 _
    linarith
  · ring

/-- C7: while `loading` is true, every mutating control of the game modal
and of the add-game modal (Set as Now Playing, Add hours, Save
progress/length, Save game info, Delete Game, Create) is disabled, and the
click handlers behind those buttons fire nothing. -/
theorem c7_loading_disables_mutations (hours hp eh : NumVal)
    (t pl c : String) (m : AddGameModal.State) :
    Modal.setNowPlayingDisabled true = true ∧
    Modal.addDisabled true hours = true ∧
    Modal.saveProgressDisabled true hp eh = true ∧
    Modal.saveMetaDisabled true t pl = true ∧
    Modal.deleteDisabled true = true ∧
    AddGameModal.createDisabled true m = true ∧
    Modal.clickAdd true hours = none ∧
    Modal.clickSaveMeta true t pl c = none ∧
    AddGameModal.submit m true = none := by
  simp [Modal.setNowPlayingDisabled, Modal.addDisabled,
    Modal.saveProgressDisabled, Modal.canSaveProgress,
    Modal.saveMetaDisabled, Modal.canSaveMeta, Modal.deleteDisabled,
    AddGameModal.createDisabled, Modal.clickAdd, Modal.clickSaveMeta,
    AddGameModal.submit]

/-- C10: the modal's Add-hours button is disabled whenever the entered
value is `NaN` or `≤ 0`, so a click can only fire `onAddHours` with a
strictly positive non-`NaN` value, and the resulting PATCH from `addHours`
carries exactly that `add_hours` increment. -/
theorem c10_add_hours_strictly_positive (loading : Bool) (hours : NumVal) :
    (∀ v : NumVal, jsIsNaN v = true ∨ jsLe0 v = true →
      Modal.addDisabled loading v = true) ∧
    (∀ v, Modal.clickAdd loading hours = some v →
      (∃ q : ℚ, v = some q ∧ 0 < q) ∧
      ∀ (oracle : Oracle) (s : ClientState) (g : Game) (tk : String),
        s.token = some tk →
        (addHours oracle s g v).reqs.head? =
          some (bearerReq tk .PATCH ("/games/" ++ toString g.id)
            (some (.addHoursBody v)))) := by
  constructor
  · intro v hv
    rcases hv with hv | hv <;>
      simp [Modal.addDisabled, hv]
  · intro v hv
    have hdis : Modal.addDisabled loading hours = false ∧ v = hours := by
      by_cases hd : Modal.addDisabled loading hours = true
      · simp [Modal.clickAdd, hd] at hv
      · simp only [Bool.not_eq_true] at hd
        refine ⟨hd, ?_⟩
        simp [Modal.clickAdd, hd] at hv
        exact hv.symm
    rcases hdis with ⟨hdis, hveq⟩
    subst hveq
    simp only [Modal.addDisabled, Bool.or_eq_false_iff] at hdis
    rcases hdis with ⟨⟨_, hle⟩, hnan⟩
    constructor
    · cases hq : v with
      | none => simp [jsIsNaN, hq] at hnan
      | some q =>
          refine ⟨q, rfl, ?_⟩
          rw [hq] at hle
          simp only [jsLe0, decide_eq_false_iff_not, not_le] at hle
          exact hle
    · intro oracle s g tk hs
      cases h2 : oracle (bearerReq tk .PATCH ("/games/" ++ toString g.id)
          (some (.addHoursBody v))) with
      | error e => simp [addHours, apiJson, hs, h2]
      | ok r => simp [addHours, apiJson, hs, h2]

/-- C10 witness: with `loading = false` and an entered value parsing to 2,
the click fires with a strictly positive increment. -/
theorem c10_witness :
    Modal.clickAdd false (some 2) = some (some 2) ∧
    (∃ q : ℚ, (some 2 : NumVal) = some q ∧ 0 < q) :=
  ⟨by decide,
    ((c10_add_hours_strictly_positive false (some 2)).2 (some 2) (by decide)).1⟩

/-- C1 counterexample: the code maps a `null` timestamp to epoch 0, not to
the earliest possible time: next to a record dated before 1970
(`Date.parse` = -1) the `null` record sorts first, not last, so the claimed
ordering fails on this two-record list. -/
theorem c1_counterexample :
    backlog [exNull, exPre] = [exNull, exPre] ∧
    backlog [exNull, exPre] ≠ [exPre, exNull] ∧
    exNull.last_now_playing_at = none ∧
    exPre.last_now_playing_at = some (-1) := by
  refine ⟨by decide, by decide, rfl, rfl⟩

/-- C1 (amended): the backlog is the non-current games sorted descending by
`last_now_playing_at`, with a `null` timestamp treated as the Unix epoch
(key 0) — so `null` records sort last among records dated at or after the
epoch, but not below pre-1970 timestamps; in particular for records with
`null`, `"2024-01-01"`, `"2024-06-01"` the order is
`"2024-06-01"`, `"2024-01-01"`, `null`. -/
theorem c1_backlog_descending (gs : List Game) :
    List.Perm (backlog gs) (gs.filter (fun g => !g.is_current)) ∧
    (backlog gs).Pairwise (fun a b => sortKey b ≤ sortKey a) ∧
    backlog [exNull, exJan, exJun] = [exJun, exJan, exNull] := by
  refine ⟨sortDesc_perm _, sortDesc_pairwise _, by decide⟩

/-- C2: after each of the six mutating calls, and only on its success, the
client issues exactly one `GET /games` re-fetch and replaces its local list
with whatever that re-fetch yields (`fetchList`, a function of the GET
response alone, independent of the mutation's own response `r`); on failure
no re-fetch happens. -/
theorem c2_refetch_after_mutation (oracle : Oracle) (s : ClientState)
    (t : String) (hs : s.token = some t) :
    (∀ p r, oracle (bearerReq t .POST "/games" (some (createGameBody p))) = .ok r →
      (createGame oracle s p).reqs =
        [bearerReq t .POST "/games" (some (createGameBody p)),
          bearerReq t .GET "/games" none] ∧
      (createGame oracle s p).state.games = fetchList oracle t) ∧
    (∀ p e, oracle (bearerReq t .POST "/games" (some (createGameBody p))) = .error e →
      (createGame oracle s p).reqs =
        [bearerReq t .POST "/games" (some (createGameBody p))]) ∧
    (∀ g r, oracle (bearerReq t .PATCH ("/games/" ++ toString (Game.id g))
        (some .isCurrentTrue)) = .ok r →
      (setNowPlaying oracle s g).reqs =
        [bearerReq t .PATCH ("/games/" ++ toString (Game.id g)) (some .isCurrentTrue),
          bearerReq t .GET "/games" none] ∧
      (setNowPlaying oracle s g).state.games = fetchList oracle t) ∧
    (∀ g e, oracle (bearerReq t .PATCH ("/games/" ++ toString (Game.id g))
        (some .isCurrentTrue)) = .error e →
      (setNowPlaying oracle s g).reqs =
        [bearerReq t .PATCH ("/games/" ++ toString (Game.id g)) (some .isCurrentTrue)]) ∧
    (∀ g v r, oracle (bearerReq t .PATCH ("/games/" ++ toString (Game.id g))
        (some (.addHoursBody v))) = .ok r →
      (addHours oracle s g v).reqs =
        [bearerReq t .PATCH ("/games/" ++ toString (Game.id g)) (some (.addHoursBody v)),
          bearerReq t .GET "/games" none] ∧
      (addHours oracle s g v).state.games = fetchList oracle t) ∧
    (∀ g v e, oracle (bearerReq t .PATCH ("/games/" ++ toString (Game.id g))
        (some (.addHoursBody v))) = .error e →
      (addHours oracle s g v).reqs =
        [bearerReq t .PATCH ("/games/" ++ toString (Game.id g)) (some (.addHoursBody v))]) ∧
    (∀ g hp eh r, oracle (bearerReq t .PATCH ("/games/" ++ toString (Game.id g))
        (some (.progressBody hp eh))) = .ok r →
      (saveEdits oracle s g hp eh).reqs =
        [bearerReq t .PATCH ("/games/" ++ toString (Game.id g)) (some (.progressBody hp eh)),
          bearerReq t .GET "/games" none] ∧
      (saveEdits oracle s g hp eh).state.games = fetchList oracle t) ∧
    (∀ g hp eh e, oracle (bearerReq t .PATCH ("/games/" ++ toString (Game.id g))
        (some (.progressBody hp eh))) = .error e →
      (saveEdits oracle s g hp eh).reqs =
        [bearerReq t .PATCH ("/games/" ++ toString (Game.id g)) (some (.progressBody hp eh))]) ∧
    (∀ g p r, oracle (bearerReq t .PATCH ("/games/" ++ toString (Game.id g))
        (some (.metaBody (MetaPayload.title p) (MetaPayload.platform p)
          (MetaPayload.cover_art_url p)))) = .ok r →
      (saveMeta oracle s g p).reqs =
        [bearerReq t .PATCH ("/games/" ++ toString (Game.id g))
            (some (.metaBody (MetaPayload.title p) (MetaPayload.platform p)
              (MetaPayload.cover_art_url p))),
          bearerReq t .GET "/games" none] ∧
      (saveMeta oracle s g p).state.games = fetchList oracle t) ∧
    (∀ g p e, oracle (bearerReq t .PATCH ("/games/" ++ toString (Game.id g))
        (some (.metaBody (MetaPayload.title p) (MetaPayload.platform p)
          (MetaPayload.cover_art_url p)))) = .error e →
      (saveMeta oracle s g p).reqs =
        [bearerReq t .PATCH ("/games/" ++ toString (Game.id g))
            (some (.metaBody (MetaPayload.title p) (MetaPayload.platform p)
              (MetaPayload.cover_art_url p)))]) ∧
    (∀ g r, oracle (bearerReq t .DELETE ("/games/" ++ toString (Game.id g)) none) = .ok r →
      (deleteGame oracle s g).reqs =
        [bearerReq t .DELETE ("/games/" ++ toString (Game.id g)) none,
          bearerReq t .GET "/games" none] ∧
      (deleteGame oracle s g).state.games = fetchList oracle t) ∧
    (∀ g e, oracle (bearerReq t .DELETE ("/games/" ++ toString (Game.id g)) none) = .error e →
      (deleteGame oracle s g).reqs =
        [bearerReq t .DELETE ("/games/" ++ toString (Game.id g)) none]) := by
  refine ⟨?_, ?_, ?_, ?_, ?_, ?_, ?_, ?_, ?_, ?_, ?_, ?_⟩
  · intro p r h2
    simp [createGame, apiJson, hs, h2, refresh_run oracle s t hs]
  · intro p e h2
    simp [createGame, apiJson, hs, h2]
  · intro g r h2
    simp [setNowPlaying, apiJson, hs, h2, refresh_run oracle s t hs]
  · intro g e h2
    simp [setNowPlaying, apiJson, hs, h2]
  · intro g v r h2
    simp [addHours, apiJson, hs, h2, refresh_run oracle s t hs]
  · intro g v e h2
    simp [addHours, apiJson, hs, h2]
  · intro g hp eh r h2
    simp [saveEdits, apiJson, hs, h2, refresh_run oracle s t hs]
  · intro g hp eh e h2
    simp [saveEdits, apiJson, hs, h2]
  · intro g p r h2
    simp [saveMeta, apiJson, hs, h2, refresh_run oracle s t hs]
  · intro g p e h2
    simp [saveMeta, apiJson, hs, h2]
  · intro g r h2
    simp [deleteGame, apiJson, hs, h2, refresh_run oracle s t hs]
  · intro g e h2
    simp [deleteGame, apiJson, hs, h2]

/-- C2 witness: a concrete successful create against a stub backend issues
the POST followed by the GET re-fetch and stores the re-fetched list. -/
theorem c2_witness :
    ((⟨[], none, false, false, some "t"⟩ : ClientState).token = some "t") ∧
    ((fun _ => Except.ok ApiResp.noJson : Oracle)
        (bearerReq "t" .POST "/games"
          (some (createGameBody ⟨"Elden Ring", "PC", none, none⟩))) =
      .ok ApiResp.noJson) ∧
    (createGame (fun _ => Except.ok ApiResp.noJson)
        ⟨[], none, false, false, some "t"⟩ ⟨"Elden Ring", "PC", none, none⟩).reqs =
      [bearerReq "t" .POST "/games"
          (some (createGameBody ⟨"Elden Ring", "PC", none, none⟩)),
        bearerReq "t" .GET "/games" none] ∧
    (createGame (fun _ => Except.ok ApiResp.noJson)
        ⟨[], none, false, false, some "t"⟩ ⟨"Elden Ring", "PC", none, none⟩).state.games =
      fetchList (fun _ => Except.ok ApiResp.noJson) "t" := by
  refine ⟨rfl, rfl, ?_⟩
  exact (c2_refetch_after_mutation (fun _ => Except.ok ApiResp.noJson)
    ⟨[], none, false, false, some "t"⟩ "t" rfl).1
    ⟨"Elden Ring", "PC", none, none⟩ ApiResp.noJson rfl

/-- C6 counterexample: a failing `GET /games` does not leave the local
game-list state unchanged — `refresh` resets it to `[]` (and raises no
alert), so the claim fails for the list-fetch call. -/
theorem c6_counterexample :
    (refresh (fun _ => Except.error "500 Internal Server Error")
        ⟨[exNull], none, false, false, some "tok"⟩).1.games = [] ∧
    (⟨[exNull], none, false, false, some "tok"⟩ : ClientState).games ≠ [] := by
  refine ⟨?_, by decide⟩
  rw [refresh_run (fun _ => Except.error "500 Internal Server Error")
    ⟨[exNull], none, false, false, some "tok"⟩ "tok" rfl]
  rfl

/-- C6 (amended): when a mutating call fails the client performs no retry
(the failed request is the only one issued, no re-fetch), surfaces the
failure through one alert, and leaves `games`, `selected` and `addOpen`
unchanged; a failing `GET /games` re-fetch instead clears the list to `[]`
and surfaces nothing. -/
theorem c6_failure_leaves_state (oracle : Oracle) (s : ClientState)
    (t : String) (hs : s.token = some t) :
    (∀ e, oracle (bearerReq t .GET "/games" none) = .error e →
      (refresh oracle s).1.games = [] ∧ (refresh oracle s).2.length = 1) ∧
    (∀ p e, oracle (bearerReq t .POST "/games" (some (createGameBody p))) = .error e →
      (createGame oracle s p).reqs =
        [bearerReq t .POST "/games" (some (createGameBody p))] ∧
      (createGame oracle s p).state.games = s.games ∧
      (createGame oracle s p).state.selected = s.selected ∧
      (createGame oracle s p).state.addOpen = s.addOpen ∧
      (createGame oracle s p).alerts = ["Create failed: " ++ e]) ∧
    (∀ g e, oracle (bearerReq t .PATCH ("/games/" ++ toString (Game.id g))
        (some .isCurrentTrue)) = .error e →
      (setNowPlaying oracle s g).reqs =
        [bearerReq t .PATCH ("/games/" ++ toString (Game.id g)) (some .isCurrentTrue)] ∧
      (setNowPlaying oracle s g).state.games = s.games ∧
      (setNowPlaying oracle s g).state.selected = s.selected ∧
      (setNowPlaying oracle s g).state.addOpen = s.addOpen ∧
      (setNowPlaying oracle s g).alerts = ["Update failed: " ++ e]) ∧
    (∀ g v e, oracle (bearerReq t .PATCH ("/games/" ++ toString (Game.id g))
        (some (.addHoursBody v))) = .error e →
      (addHours oracle s g v).reqs =
        [bearerReq t .PATCH ("/games/" ++ toString (Game.id g)) (some (.addHoursBody v))] ∧
      (addHours oracle s g v).state.games = s.games ∧
      (addHours oracle s g v).state.selected = s.selected ∧
      (addHours oracle s g v).state.addOpen = s.addOpen ∧
      (addHours oracle s g v).alerts = ["Update failed: " ++ e]) ∧
    (∀ g hp eh e, oracle (bearerReq t .PATCH ("/games/" ++ toString (Game.id g))
        (some (.progressBody hp eh))) = .error e →
      (saveEdits oracle s g hp eh).reqs =
        [bearerReq t .PATCH ("/games/" ++ toString (Game.id g)) (some (.progressBody hp eh))] ∧
      (saveEdits oracle s g hp eh).state.games = s.games ∧
      (saveEdits oracle s g hp eh).state.selected = s.selected ∧
      (saveEdits oracle s g hp eh).state.addOpen = s.addOpen ∧
      (saveEdits oracle s g hp eh).alerts = ["Save failed: " ++ e]) ∧
    (∀ g p e, oracle (bearerReq t .PATCH ("/games/" ++ toString (Game.id g))
        (some (.metaBody (MetaPayload.title p) (MetaPayload.platform p)
          (MetaPayload.cover_art_url p)))) = .error e →
      (saveMeta oracle s g p).reqs =
        [bearerReq t .PATCH ("/games/" ++ toString (Game.id g))
          (some (.metaBody (MetaPayload.title p) (MetaPayload.platform p)
            (MetaPayload.cover_art_url p)))] ∧
      (saveMeta oracle s g p).state.games = s.games ∧
      (saveMeta oracle s g p).state.selected = s.selected ∧
      (saveMeta oracle s g p).state.addOpen = s.addOpen ∧
      (saveMeta oracle s g p).alerts = ["Save failed: " ++ e]) ∧
    (∀ g e, oracle (bearerReq t .DELETE ("/games/" ++ toString (Game.id g)) none) = .error e →
      (deleteGame oracle s g).reqs =
        [bearerReq t .DELETE ("/games/" ++ toString (Game.id g)) none] ∧
      (deleteGame oracle s g).state.games = s.games ∧
      (deleteGame oracle s g).state.selected = s.selected ∧
      (deleteGame oracle s g).state.addOpen = s.addOpen ∧
      (deleteGame oracle s g).alerts = ["Delete failed: " ++ e]) := by
  refine ⟨?_, ?_, ?_, ?_, ?_, ?_, ?_⟩
  · intro e h2
    rw [refresh_run oracle s t hs]
    simp [fetchList, h2]
  · intro p e h2
    simp [createGame, apiJson, hs, h2]
  · intro g e h2
    simp [setNowPlaying, apiJson, hs, h2]
  · intro g v e h2
    simp [addHours, apiJson, hs, h2]
  · intro g hp eh e h2
    simp [saveEdits, apiJson, hs, h2]
  · intro g p e h2
    simp [saveMeta, apiJson, hs, h2]
  · intro g e h2
    simp [deleteGame, apiJson, hs, h2]

/-- C6 witness: a concrete failing delete against a stub backend issues
exactly one request, alerts, and leaves the list untouched. -/
theorem c6_witness :
    ((⟨[exNull], none, false, false, some "t"⟩ : ClientState).token = some "t") ∧
    ((fun _ => Except.error "boom" : Oracle)
        (bearerReq "t" .DELETE ("/games/" ++ toString (Game.id exJan)) none) =
      .error "boom") ∧
    (deleteGame (fun _ => Except.error "boom")
        ⟨[exNull], none, false, false, some "t"⟩ exJan).reqs =
      [bearerReq "t" .DELETE ("/games/" ++ toString (Game.id exJan)) none] ∧
    (deleteGame (fun _ => Except.error "boom")
        ⟨[exNull], none, false, false, some "t"⟩ exJan).state.games =
      (⟨[exNull], none, false, false, some "t"⟩ : ClientState).games ∧
    (deleteGame (fun _ => Except.error "boom")
        ⟨[exNull], none, false, false, some "t"⟩ exJan).state.selected =
      (⟨[exNull], none, false, false, some "t"⟩ : ClientState).selected ∧
    (deleteGame (fun _ => Except.error "boom")
        ⟨[exNull], none, false, false, some "t"⟩ exJan).state.addOpen =
      (⟨[exNull], none, false, false, some "t"⟩ : ClientState).addOpen ∧
    (deleteGame (fun _ => Except.error "boom")
        ⟨[exNull], none, false, false, some "t"⟩ exJan).alerts =
      ["Delete failed: " ++ "boom"] := by
  refine ⟨rfl, rfl, ?_⟩
  exact (c6_failure_leaves_state (fun _ => Except.error "boom")
    ⟨[exNull], none, false, false, some "t"⟩ "t" rfl).2.2.2.2.2.2
    exJan "boom" rfl

/-- C3: every request the client puts on the wire carries an
`Authorization: Bearer` header holding the current session token, and with
no token present `apiJson` fails with "Not authenticated" without issuing
any request. -/
theorem c3_bearer_auth :
    (∀ (oracle : Oracle) (verb : Verb) (path : String) (body : Option ReqBody),
      apiJson oracle none verb path body = (.error "Not authenticated", [])) ∧
    (∀ (oracle : Oracle) (s : ClientState) (t : String), s.token = some t →
      (∀ req ∈ (refresh oracle s).2, req.auth = some ("Bearer " ++ t)) ∧
      (∀ p, ∀ req ∈ (createGame oracle s p).reqs, req.auth = some ("Bearer " ++ t)) ∧
      (∀ g, ∀ req ∈ (setNowPlaying oracle s g).reqs, req.auth = some ("Bearer " ++ t)) ∧
      (∀ g v, ∀ req ∈ (addHours oracle s g v).reqs, req.auth = some ("Bearer " ++ t)) ∧
      (∀ g hp eh, ∀ req ∈ (saveEdits oracle s g hp eh).reqs,
        req.auth = some ("Bearer " ++ t)) ∧
      (∀ g p, ∀ req ∈ (saveMeta oracle s g p).reqs, req.auth = some ("Bearer " ++ t)) ∧
      (∀ g, ∀ req ∈ (deleteGame oracle s g).reqs, req.auth = some ("Bearer " ++ t))) := by
  constructor
  · intro oracle verb path body
    rfl
  · intro oracle s t hs
    have href : ∀ req ∈ (refresh oracle s).2, req.auth = some ("Bearer " ++ t) := by
      rw [refresh_run oracle s t hs]
      intro req hreq
      rcases List.mem_singleton.mp hreq with rfl
      rfl
    refine ⟨href, ?_, ?_, ?_, ?_, ?_, ?_⟩
    · intro p req hreq
      revert hreq
      cases h2 : oracle (bearerReq t .POST "/games" (some (createGameBody p))) with
      | error e =>
          simp only [createGame, apiJson, hs, h2]
          intro hreq
          rcases List.mem_singleton.mp hreq with rfl
          rfl
      | ok r =>
          simp only [createGame, apiJson, hs, h2]
          intro hreq
          rcases List.mem_cons.mp hreq with rfl | hreq
          · rfl
          · exact href req hreq
    · intro g req hreq
      revert hreq
      cases h2 : oracle (bearerReq t .PATCH ("/games/" ++ toString (Game.id g))
          (some .isCurrentTrue)) with
      | error e =>
          simp only [setNowPlaying, apiJson, hs, h2]
          intro hreq
          rcases List.mem_singleton.mp hreq with rfl
          rfl
      | ok r =>
          simp only [setNowPlaying, apiJson, hs, h2]
          intro hreq
          rcases List.mem_cons.mp hreq with rfl | hreq
          · rfl
          · exact href req hreq
    · intro g v req hreq
      revert hreq
      cases h2 : oracle (bearerReq t .PATCH ("/games/" ++ toString (Game.id g))
          (some (.addHoursBody v))) with
      | error e =>
          simp only [addHours, apiJson, hs, h2]
          intro hreq
          rcases List.mem_singleton.mp hreq with rfl
          rfl
      | ok r =>
          simp only [addHours, apiJson, hs, h2]
          intro hreq
          rcases List.mem_cons.mp hreq with rfl | hreq
          · rfl
          · exact href req hreq
    · intro g hp eh req hreq
      revert hreq
      cases h2 : oracle (bearerReq t .PATCH ("/games/" ++ toString (Game.id g))
          (some (.progressBody hp eh))) with
      | error e =>
          simp only [saveEdits, apiJson, hs, h2]
          intro hreq
          rcases List.mem_singleton.mp hreq with rfl
          rfl
      | ok r =>
          simp only [saveEdits, apiJson, hs, h2]
          intro hreq
          rcases List.mem_cons.mp hreq with rfl | hreq
          · rfl
          · exact href req hreq
    · intro g p req hreq
      revert hreq
      cases h2 : oracle (bearerReq t .PATCH ("/games/" ++ toString (Game.id g))
          (some (.metaBody (MetaPayload.title p) (MetaPayload.platform p)
            (MetaPayload.cover_art_url p)))) with
      | error e =>
          simp only [saveMeta, apiJson, hs, h2]
          intro hreq
          rcases List.mem_singleton.mp hreq with rfl
          rfl
      | ok r =>
          simp only [saveMeta, apiJson, hs, h2]
          intro hreq
          rcases List.mem_cons.mp hreq with rfl | hreq
          · rfl
          · exact href req hreq
    · intro g req hreq
      revert hreq
      cases h2 : oracle (bearerReq t .DELETE ("/games/" ++ toString (Game.id g)) none) with
      | error e =>
          simp only [deleteGame, apiJson, hs, h2]
          intro hreq
          rcases List.mem_singleton.mp hreq with rfl
          rfl
      | ok r =>
          simp only [deleteGame, apiJson, hs, h2]
          intro hreq
          rcases List.mem_cons.mp hreq with rfl | hreq
          · rfl
          · exact href req hreq

/-- C3 witness: the one request a concrete `refresh` sends carries the
Bearer header built from the session token. -/
theorem c3_witness :
    bearerReq "t" .GET "/games" none ∈
      (refresh (fun _ => Except.ok ApiResp.jsonOther)
        ⟨[], none, false, false, some "t"⟩).2 ∧
    (bearerReq "t" .GET "/games" none).auth = some ("Bearer " ++ "t") := by
  refine ⟨by decide, ?_⟩
  exact (c3_bearer_auth.2 (fun _ => Except.ok ApiResp.jsonOther)
    ⟨[], none, false, false, some "t"⟩ "t" rfl).1
    (bearerReq "t" .GET "/games" none) (by decide)

/-- A string has positive length exactly when it is not empty. -/
theorem string_length_pos (s : String) : 0 < s.length ↔ s ≠ "" := by
  rw [String.length]
  constructor
  · intro h he
    subst he
    simp at h
  · intro h
    cases hq : s.data with
    | nil => exact absurd (String.ext hq) h
    | cons a l => simp [hq]

/-- Every reachable add-game-modal state has its platform drawn from
`PLATFORMS`: the initial value is `"PC"` and the `select` only offers
entries of `PLATFORMS`. -/
theorem addModal_platform_mem (evs : List AddGameModal.Event) :
    (AddGameModal.reach evs).platform ∈ PLATFORMS := by
  have h : ∀ s : AddGameModal.State, s.platform ∈ PLATFORMS →
      (evs.foldl AddGameModal.step s).platform ∈ PLATFORMS := by
    induction evs with
    | nil => exact fun s h => h
    | cons e t ih =>
        intro s h
        rw [List.foldl_cons]
        apply ih
        cases e with
        | setTitle x => exact h
        | setPlatform i => exact PLATFORMS.get_mem i.1 i.2
        | setCover x => exact h
        | setEstimated v => exact h
  exact h AddGameModal.init (by decide)

/-- C4: in every reachable add-game-modal state, `canSubmit` holds exactly
when the trimmed title is non-empty and the estimated-hours input parses to
a strictly positive number; the platform always comes from the fixed
`PLATFORMS` set; and the POST body built from a submitted payload carries
the trimmed title, the platform, `cover_art_url` (`null` when the input is
blank), the parsed `estimated_hours` (40 when the payload leaves it
unspecified) and status `"backlog"`. -/
theorem c4_create_form (evs : List AddGameModal.Event) (loading : Bool) :
    (AddGameModal.canSubmit (AddGameModal.reach evs) = true ↔
      (jsTrim (AddGameModal.reach evs).title ≠ "" ∧
        ∃ q : ℚ, (AddGameModal.reach evs).estimatedHours = some q ∧ 0 < q)) ∧
    (AddGameModal.reach evs).platform ∈ PLATFORMS ∧
    (∀ p, AddGameModal.submit (AddGameModal.reach evs) loading = some p →
      createGameBody p =
        .createBody (jsTrim (AddGameModal.reach evs).title)
          (AddGameModal.reach evs).platform
          (if jsTrim (AddGameModal.reach evs).coverArtUrl ≠ ""
            then some (jsTrim (AddGameModal.reach evs).coverArtUrl) else none)
          (AddGameModal.reach evs).estimatedHours "backlog") ∧
    (∀ p : CreatePayload, p.estimated_hours = none →
      createGameBody p =
        .createBody p.title p.platform p.cover_art_url (some 40) "backlog") := by
  refine ⟨?_, addModal_platform_mem evs, ?_, ?_⟩
  · cases hq : (AddGameModal.reach evs).estimatedHours with
    | none =>
        simp [AddGameModal.canSubmit, jsGt0, jsIsNaN, hq]
    | some q =>
        simp [AddGameModal.canSubmit, jsGt0, jsIsNaN, hq,
          string_length_pos, and_comm]
  · intro p hp
    unfold AddGameModal.submit at hp
    split at hp
    · exact absurd hp (by simp)
    · rcases Option.some.inj hp with rfl
      rfl
  · intro p hp
    simp [createGameBody, hp]

/-- C4 witness: after typing a title, the Create button submits and the
posted body carries the expected fields. -/
theorem c4_witness :
    AddGameModal.submit
        (AddGameModal.reach [AddGameModal.Event.setTitle "Elden Ring"]) false =
      some ⟨"Elden Ring", "PC", none, some (some 40)⟩ ∧
    createGameBody ⟨"Elden Ring", "PC", none, some (some 40)⟩ =
      .createBody "Elden Ring" "PC" none (some 40) "backlog" := by
  refine ⟨by decide, ?_⟩
  have h := (c4_create_form [AddGameModal.Event.setTitle "Elden Ring"] false).2.2.1
    ⟨"Elden Ring", "PC", none, some (some 40)⟩ (by decide)
  exact h.trans (by decide)

/-- C5: a game-info save sends a PATCH whose body always contains all three
metadata fields, with `cover_art_url` equal to `null` exactly when the
cover-art input is blank after trimming, and otherwise the trimmed URL. -/
theorem c5_meta_patch (loading : Bool) (et ep ec : String) (p : MetaPayload)
    (h : Modal.clickSaveMeta loading et ep ec = some p) :
    p.title = jsTrim et ∧ p.platform = ep ∧
    (p.cover_art_url = none ↔ jsTrim ec = "") ∧
    (∀ u, p.cover_art_url = some u → u = jsTrim ec) ∧
    (∀ (oracle : Oracle) (s : ClientState) (g : Game) (tk : String),
      s.token = some tk →
      (saveMeta oracle s g p).reqs.head? =
        some (bearerReq tk .PATCH ("/games/" ++ toString (Game.id g))
          (some (.metaBody (MetaPayload.title p) (MetaPayload.platform p)
            (MetaPayload.cover_art_url p))))) := by
  unfold Modal.clickSaveMeta at h
  split at h
  · exact absurd h (by simp)
  · rcases Option.some.inj h with rfl
    refine ⟨rfl, rfl, ?_, ?_, ?_⟩
    · unfold Modal.metaPayload
      by_cases hc : jsTrim ec = "" <;> simp [hc]
    · unfold Modal.metaPayload
      by_cases hc : jsTrim ec = "" <;> simp [hc]
    · intro oracle s g tk hs
      cases h2 : oracle (bearerReq tk .PATCH ("/games/" ++ toString (Game.id g))
          (some (.metaBody (Modal.metaPayload et ep ec).title
            (Modal.metaPayload et ep ec).platform
            (Modal.metaPayload et ep ec).cover_art_url))) with
      | error e => simp [saveMeta, apiJson, hs, h2]
      | ok r => simp [saveMeta, apiJson, hs, h2]

/-- C5 witness: saving with a whitespace-only cover input sends
`cover_art_url: null`. -/
theorem c5_witness :
    Modal.clickSaveMeta false "Elden Ring" "PC" "   " =
      some ⟨"Elden Ring", "PC", none⟩ ∧
    ((⟨"Elden Ring", "PC", none⟩ : MetaPayload).cover_art_url = none ↔
      jsTrim "   " = "") :=
  ⟨by decide,
    (c5_meta_patch false "Elden Ring" "PC" "   "
      ⟨"Elden Ring", "PC", none⟩ (by decide)).2.2.1⟩

/-- `currentGame` is the head of the filtered current games. -/
theorem currentGame_eq_filter_head (gs : List Game) :
    currentGame gs = (gs.filter (fun g => g.is_current)).head? :=
  find_eq_filter_head _ gs

/-- `currentGame` returns the first record whose `is_current` is true. -/
theorem currentGame_first (l1 : List Game) (c : Game) (l2 : List Game)
    (h1 : ∀ x ∈ l1, x.is_current = false) (hc : c.is_current = true) :
    currentGame (l1 ++ c :: l2) = some c := by
  induction l1 with
  | nil =>
      unfold currentGame
      rw [List.nil_append, List.find?_cons_of_pos _ hc]
  | cons h t ih =>
      have hh : h.is_current = false := h1 h (by simp)
      unfold currentGame
      rw [List.cons_append, List.find?_cons_of_neg _ (by simp [hh])]
      exact ih (fun x hx => h1 x (by simp [hx]))

/-- C8: with pairwise-distinct ids, the Now Playing slot shows only the
first record with `is_current = true`; every current record is excluded
from the backlog (so any additional current records appear in neither
view); and each fetched game lands in exactly one of the two views only
when at most one record is current. -/
theorem c8_duplicate_current (gs : List Game)
    (hid : gs.Pairwise (fun a b => a.id ≠ b.id)) :
    currentGame gs = (gs.filter (fun g => g.is_current)).head? ∧
    (∀ g ∈ backlog gs, g.is_current = false) ∧
    (∀ l1 c1 l2, gs = l1 ++ c1 :: l2 → (∀ x ∈ l1, x.is_current = false) →
      c1.is_current = true → ∀ c2 ∈ l2, c2.is_current = true →
        currentGame gs = some c1 ∧ currentGame gs ≠ some c2 ∧
          c2 ∉ backlog gs) ∧
    ((∀ g ∈ gs, (currentGame gs = some g ∧ g ∉ backlog gs) ∨
        (currentGame gs ≠ some g ∧ g ∈ backlog gs)) →
      (gs.filter (fun g => g.is_current)).length ≤ 1) := by
  refine ⟨currentGame_eq_filter_head gs,
    fun g hg => mem_backlog_not_current gs g hg, ?_, ?_⟩
  · intro l1 c1 l2 hgs h1 hc1 c2 hmem hc2
    subst hgs
    have hfirst := currentGame_first l1 c1 l2 h1 hc1
    have hne : c1 ≠ c2 := by
      have hp : (c1 :: l2).Pairwise (fun a b => a.id ≠ b.id) :=
        (List.pairwise_append.mp hid).2.1
      have hid12 := (List.pairwise_cons.mp hp).1 c2 hmem
      intro he
      exact hid12 (congrArg Game.id he)
    refine ⟨hfirst, ?_, ?_⟩
    · rw [hfirst]
      intro h
      exact hne (Option.some.inj h)
    · intro hb
      have := mem_backlog_not_current _ c2 hb
      rw [hc2] at this
      cases this
  · intro H
    by_contra hlen
    push_neg at hlen
    cases hfe : gs.filter (fun g => g.is_current) with
    | nil => rw [hfe] at hlen; simp at hlen
    | cons a tail =>
        cases htl : tail with
        | nil => rw [hfe, htl] at hlen; simp at hlen
        | cons b rest =>
            have hbf : b ∈ gs.filter (fun g => g.is_current) := by
              rw [hfe, htl]; simp
            have hbgs : b ∈ gs := (List.mem_filter.mp hbf).1
            have hbcur : b.is_current = true := (List.mem_filter.mp hbf).2
            have hcg : currentGame gs = some a := by
              rw [currentGame_eq_filter_head gs, hfe]
              rfl
            have hpf : (gs.filter (fun g => g.is_current)).Pairwise
                (fun a b => a.id ≠ b.id) := hid.filter _
            have hab : a.id ≠ b.id := by
              rw [hfe, htl] at hpf
              exact (List.pairwise_cons.mp hpf).1 b (by simp)
            rcases H b hbgs with ⟨h1, _⟩ | ⟨_, h2⟩
            · rw [hcg] at h1
              exact hab (congrArg Game.id (Option.some.inj h1))
            · have := mem_backlog_not_current gs b h2
              rw [hbcur] at this
              cases this

/-- C8 witness: a concrete list with two current records and distinct ids:
the view shows the head of the filtered current games. -/
theorem c8_witness :
    ([⟨10, "A", "PC", "playing", 0, 40, 0, none, true, none⟩,
      ⟨11, "B", "PC", "playing", 0, 40, 0, none, true, none⟩] : List Game).Pairwise
        (fun a b => a.id ≠ b.id) ∧
    currentGame
        [⟨10, "A", "PC", "playing", 0, 40, 0, none, true, none⟩,
          ⟨11, "B", "PC", "playing", 0, 40, 0, none, true, none⟩] =
      (([⟨10, "A", "PC", "playing", 0, 40, 0, none, true, none⟩,
          ⟨11, "B", "PC", "playing", 0, 40, 0, none, true, none⟩] : List Game).filter
        (fun g => g.is_current)).head? :=
  ⟨by decide, (c8_duplicate_current _ (by decide)).1⟩

end GameLog
